import Mathlib

/-!
Verification development for the Negotio repository: a shallow embedding of
the packet codec (src/udp/udp.cpp), the telemetry counters
(src/monitor/monitor.cpp), the policy store (src/policy/policy.cpp), the
handshake state machine (src/negotiate/negotiate.cpp) and the supervisor
command handler (NegotioApplication.cpp), together with theorems settling
the specification claims against the embedded code.

Machine integers are modelled as Nat with explicit reduction mod 2^32 at
the points where the C++ code truncates (uint32_t casts and overflowing
additions). Byte buffers are lists of Nat (each element a byte value),
and 32-bit payload words are Nat values below 2^32.
-/

namespace Negotio

/-- Fixed magic constant, common.h line 111: 0x0E45474F. -/
def MAGIC_NUMBER : Nat := 0x0E45474F

/-- One more than the largest uint32_t value; uint32_t arithmetic wraps mod this. -/
def U32MOD : Nat := 4294967296

/-- Error codes, common.h enum class ErrorCode. -/
inductive ErrorCode where
  | SUCCESS
  | TIMEOUT
  | INVALID_PARAM
  | NEGOTIATION_FAILED
  | MEMORY_ERROR
  | SOCKET_ERROR
deriving DecidableEq, Repr

/-- Packet header, common.h struct PacketHeader (packed, five uint32_t fields,
20 bytes total). The type field is stored as its raw 32-bit value: the C++
field is an enum class with a 32-bit underlying type, and deserialization
memcpy-s arbitrary bytes into it, so any value can appear. -/
structure PacketHeader where
  magic : Nat
  type : Nat
  sequence : Nat
  timestamp : Nat
  payload_len : Nat
deriving DecidableEq, Repr

/-- Negotiation packet, common.h struct NegotiationPacket: header plus a
payload of 32-bit words. -/
structure NegotiationPacket where
  header : PacketHeader
  payload : List Nat
deriving DecidableEq, Repr

/-- Little-endian byte decomposition of a 32-bit word, as memcpy lays a
uint32_t out on the little-endian targets the code assumes. -/
def u32ToBytes (x : Nat) : List Nat :=
  [x % 256, x / 256 % 256, x / 65536 % 256, x / 16777216 % 256]

/-- Little-endian recomposition of four bytes into a 32-bit word. -/
def bytesToU32 (b0 b1 b2 b3 : Nat) : Nat :=
  b0 + 256 * b1 + 65536 * b2 + 16777216 * b3

/-- Byte image of an array of 32-bit words, as memcpy reads
a std::vector of uint32_t. -/
def wordsToBytes : List Nat → List Nat
  | [] => []
  | w :: t => u32ToBytes w ++ wordsToBytes t

/-- Word image of a byte buffer whose length is a multiple of four, as
memcpy writes it into a std::vector of uint32_t; a trailing fragment of
fewer than four bytes is never present at the call sites (the callers
check divisibility by four first). -/
def bytesToWords : List Nat → List Nat
  | b0 :: b1 :: b2 :: b3 :: rest => bytesToU32 b0 b1 b2 b3 :: bytesToWords rest
  | _ => []

/-- Byte read at an offset of a buffer, as memcpy reads source bytes.
Out-of-range reads do not occur at the call sites (guarded by length
checks); they are given the junk value 0 here. -/
def getByte : List Nat → Nat → Nat
  | [], _ => 0
  | b :: _, 0 => b
  | _ :: t, i + 1 => getByte t i

/-- Little-endian uint32_t read at a byte offset of a buffer, as the header
memcpy in UdpSocket::deserializePacket reads each field. -/
def readU32 (l : List Nat) (i : Nat) : Nat :=
  bytesToU32 (getByte l i) (getByte l (i + 1)) (getByte l (i + 2)) (getByte l (i + 3))

/-- The header that the memcpy in UdpSocket::deserializePacket (udp.cpp
line 145) copies out of the first 20 bytes of the buffer: the five
uint32_t fields in declaration order, little-endian. -/
def parseHeader (buffer : List Nat) : PacketHeader :=
  { magic := readU32 buffer 0
    type := readU32 buffer 4
    sequence := readU32 buffer 8
    timestamp := readU32 buffer 12
    payload_len := readU32 buffer 16 }

/-- UdpSocket::serializePacket, udp.cpp lines 120-136: 20 header bytes
(the packed struct, fields little-endian in declaration order) followed by
the payload words; returns the total byte count through the buffer length. -/
def serializePacket (p : NegotiationPacket) : List Nat :=
  u32ToBytes p.header.magic ++ u32ToBytes p.header.type ++
    u32ToBytes p.header.sequence ++ u32ToBytes p.header.timestamp ++
    u32ToBytes p.header.payload_len ++ wordsToBytes p.payload

/-- UdpSocket::deserializePacket, udp.cpp lines 138-158. The C++ function
takes the output packet by reference and returns ssize_t; it is modelled as
taking the prior value of the output parameter and returning the pair of
the ssize_t result and the final value of the output parameter. It checks
only that the buffer holds the 20-byte header and that the remainder is a
multiple of four; the header is memcpy-ed into the output before the
second check. -/
def deserializePacket (buffer : List Nat) (packet : NegotiationPacket) :
    Int × NegotiationPacket :=
  if buffer.length < 20 then (-1, packet)
  else if (buffer.length - 20) % 4 ≠ 0 then (-1, { packet with header := parseHeader buffer })
  else ((buffer.length : Int), { header := parseHeader buffer, payload := bytesToWords (buffer.drop 20) })

/-- Validity of a packet for the round-trip statement: the header fields
are in uint32_t range, magic and type are as the wire format prescribes,
and payload_len counts the payload words (each a uint32_t value). -/
def PacketWF (p : NegotiationPacket) : Prop :=
  p.header.magic = MAGIC_NUMBER ∧
  (p.header.type = 1 ∨ p.header.type = 2 ∨ p.header.type = 3) ∧
  p.header.sequence < U32MOD ∧
  p.header.timestamp < U32MOD ∧
  p.header.payload_len = p.payload.length ∧
  p.payload.length < U32MOD ∧
  ∀ w ∈ p.payload, w < U32MOD

instance (p : NegotiationPacket) : Decidable (PacketWF p) := by
  unfold PacketWF; infer_instance

/-- Default packet value used to instantiate output parameters. -/
def blankPacket : NegotiationPacket :=
  { header := { magic := 0, type := 0, sequence := 0, timestamp := 0, payload_len := 0 }
    payload := [] }

/-- A packet with nonzero header fields, to observe partial population of
the output parameter on a decode failure. -/
def markedPacket : NegotiationPacket :=
  { header := { magic := 7, type := 7, sequence := 7, timestamp := 7, payload_len := 7 }
    payload := [9] }

/-- Telemetry counters of the Monitor, monitor.h lines 45-47: three
std::atomic of uint32_t (totalNegotiations, successfulNegotiations,
totalLatencyMs). Each value is kept below 2^32, matching uint32_t. -/
structure Monitor where
  total : Nat
  succeeded : Nat
  latency : Nat
deriving DecidableEq, Repr

/-- Counters start at zero, Monitor::Monitor (monitor.cpp line 26). -/
def Monitor.init : Monitor := { total := 0, succeeded := 0, latency := 0 }

/-- Monitor::recordNegotiation, monitor.cpp lines 74-80: increment total;
on success also increment succeeded and add the duration to the cumulative
latency. All three counters are uint32_t, so every update wraps mod 2^32;
durationMs is itself a uint32_t argument at the call sites. -/
def recordNegotiation (m : Monitor) (durationMs : Nat) (success : Bool) : Monitor :=
  { total := (m.total + 1) % U32MOD
    succeeded := if success then (m.succeeded + 1) % U32MOD else m.succeeded
    latency := if success then (m.latency + durationMs) % U32MOD else m.latency }

/-- A sequence of recordNegotiation calls, in order. -/
def runRecords (m : Monitor) (rs : List (Nat × Bool)) : Monitor :=
  rs.foldl (fun acc r => recordNegotiation acc r.1 r.2) m

/-- The counters are in uint32_t range. -/
def Monitor.wf (m : Monitor) : Prop :=
  m.total < U32MOD ∧ m.succeeded < U32MOD ∧ m.latency < U32MOD

/-- Policy configuration, common.h struct PolicyConfig. -/
structure PolicyConfig where
  policy_id : Nat
  remote_ip : String
  remote_port : Nat
  timeout_ms : Nat
  retry_times : Nat
deriving DecidableEq, Repr

/-- Compile-time capacity of the policy store, policy.h line 57. -/
def MAX_POLICIES : Nat := 4096

/-- Lookup in a map keyed by uint32_t, modelling std::unordered_map::find
and ::contains on an association list. -/
def lookupAssoc {β : Type} : List (Nat × β) → Nat → Option β
  | [], _ => none
  | e :: t, k => if e.1 = k then some e.2 else lookupAssoc t k

/-- Insert-or-assign in the keyed map, modelling operator[] followed by
assignment: an existing entry for the key is replaced, otherwise a new
entry is added. -/
def insertAssoc {β : Type} : List (Nat × β) → Nat → β → List (Nat × β)
  | [], k, v => [(k, v)]
  | e :: t, k, v => if e.1 = k then (k, v) :: t else e :: insertAssoc t k v

/-- Removal of the entry with the given key, modelling
std::unordered_map::erase (keys are unique in the map). -/
def eraseKey {β : Type} : List (Nat × β) → Nat → List (Nat × β)
  | [], _ => []
  | e :: t, k => if e.1 = k then eraseKey t k else e :: eraseKey t k

/-- PolicyManager::addPolicy, policy.cpp lines 19-30: reject when the store
already holds MAX_POLICIES entries, then reject a duplicate policy_id,
otherwise insert; returns the success flag and the resulting store. -/
def addPolicy (store : List (Nat × PolicyConfig)) (cfg : PolicyConfig) :
    Bool × List (Nat × PolicyConfig) :=
  if MAX_POLICIES ≤ store.length then (false, store)
  else if (lookupAssoc store cfg.policy_id).isSome then (false, store)
  else (true, insertAssoc store cfg.policy_id cfg)

/-- PolicyManager::removePolicy, policy.cpp lines 32-35: erase returns the
number of removed entries, so the Bool is whether the key was present. -/
def removePolicy (store : List (Nat × PolicyConfig)) (pid : Nat) :
    Bool × List (Nat × PolicyConfig) :=
  ((lookupAssoc store pid).isSome, eraseKey store pid)

/-- Handshake states, negotiate.h enum class NegotiateState. -/
inductive NegotiateState where
  | INIT
  | WAIT_R2
  | WAIT_CONFIRM
  | DONE
  | FAILED
deriving DecidableEq, Repr

/-- Nonce size in bytes, common.h RANDOM_NUMBER. -/
def RANDOM_NUMBER : Nat := 32

/-- One in-flight session, negotiate.h struct NegotiationSession. random1,
random2 and key are byte vectors; key is an Option whose value none models
the undefined contents left by an out-of-bounds read (see computeKey), and
some v a well-defined vector value. The monotonic start instant is a Nat. -/
structure NegotiationSession where
  policy_id : Nat
  state : NegotiateState
  random1 : List Nat
  random2 : List Nat
  key : Option (List Nat)
  startTime : Nat
deriving DecidableEq, Repr

/-- A peer endpoint (sockaddr_in), reduced to the address string and port
that identify it at the call sites. -/
abbrev Addr := String × Nat

/-- The mutable state of a Negotiator. The C++ object keys sessions in 16
buckets, bucket policy_id mod 16 (bucketIndex), each an unordered_map from
policy_id guarded by its own mutex; since every operation on a policy_id
touches exactly the one map entry in its bucket, the aggregate of the
buckets is modelled as a single association list keyed by policy_id.
senderSet and monitorSet record whether the udpSender callback and the
Monitor pointer are installed (the code guards emission and recording on
them); the supervisor installs both. -/
structure NegotiatorState where
  sessions : List (Nat × NegotiationSession)
  senderSet : Bool
  monitorSet : Bool
  monitor : Monitor
deriving DecidableEq, Repr

/-- Negotiator::generateRandomData, negotiate.cpp lines 85-91: RAND_bytes
either fills the requested buffer or the vector is cleared. One RNG
outcome is passed in as an Option: some bs is a successful draw of the
bytes bs (32 of them at both call sites), none is RNG failure, which the
C++ surfaces as an empty vector. -/
def generateRandomData (rng : Option (List Nat)) : List Nat := rng.getD []

/-- Negotiator::computeKey, negotiate.cpp lines 102-108: memcpy the first
32 bytes of random1 and the first 32 bytes of random2 into a 64-byte
buffer and hash it with CalculateSHA256 (hash.cpp, a thin wrapper over the
vetted library SHA-256 primitive, passed in here as the function sha).
When either vector is shorter than 32 bytes the memcpy reads out of
bounds; that undefined result is modelled as none. -/
def computeKey (sha : List Nat → List Nat) (r1 r2 : List Nat) : Option (List Nat) :=
  if RANDOM_NUMBER ≤ r1.length ∧ RANDOM_NUMBER ≤ r2.length then
    some (sha (r1.take RANDOM_NUMBER ++ r2.take RANDOM_NUMBER))
  else none

/-- Negotiator::createPacket, negotiate.cpp lines 121-138: header with the
magic constant, the type tag, the policy_id in sequence, the current
monotonic milliseconds truncated to uint32_t, and payload_len equal to the
byte count divided by four; the payload bytes are copied in as words. The
call sites pass 32-byte nonces or an empty buffer, so the byte count is a
multiple of four. -/
def createPacket (ptype : Nat) (policy_id : Nat) (payloadData : List Nat) (now : Nat) :
    NegotiationPacket :=
  { header :=
      { magic := MAGIC_NUMBER
        type := ptype
        sequence := policy_id
        timestamp := now % U32MOD
        payload_len := payloadData.length / 4 }
    payload := bytesToWords payloadData }

/-- The session record built by Negotiator::startNegotiation, negotiate.cpp
lines 157-165: state WAIT_R2, the drawn r1, the vectors random2 and key
left as default-constructed empty vectors, and the start instant. -/
def initiatorSession (policy_id : Nat) (r1 : List Nat) (now : Nat) : NegotiationSession :=
  { policy_id := policy_id, state := NegotiateState.WAIT_R2, random1 := r1,
    random2 := [], key := some [], startTime := now }

/-- Negotiator::startNegotiation, negotiate.cpp lines 153-179: reject
policy_id 0; draw r1, returning MEMORY_ERROR when the RNG failed (empty
vector); otherwise store a fresh WAIT_R2 session under policy_id
(replacing any existing one) and, when the sender is installed, emit a
RANDOM1 packet carrying r1 to the peer. Returns the error code, the new
negotiator state and the emitted packets. -/
def startNegotiation (st : NegotiatorState) (policy_id : Nat) (peer : Addr) (now : Nat)
    (rng : Option (List Nat)) : ErrorCode × NegotiatorState × List (NegotiationPacket × Addr) :=
  if policy_id = 0 then (ErrorCode.INVALID_PARAM, st, [])
  else
    let r1 := generateRandomData rng
    if r1 = [] then (ErrorCode.MEMORY_ERROR, st, [])
    else
      let session := initiatorSession policy_id r1 now
      let st2 := { st with sessions := insertAssoc st.sessions policy_id session }
      let outs := if st.senderSet then [(createPacket 1 policy_id r1 now, peer)] else []
      (ErrorCode.SUCCESS, st2, outs)

/-- The responder session record built by the RANDOM1 case of
Negotiator::handlePacket, negotiate.cpp lines 219-232: state WAIT_CONFIRM,
r1 copied from the payload, r2 from the RNG, the key computed from them. -/
def responderSession (sha : List Nat → List Nat) (policy_id : Nat) (r1 r2 : List Nat)
    (now : Nat) : NegotiationSession :=
  { policy_id := policy_id, state := NegotiateState.WAIT_CONFIRM, random1 := r1,
    random2 := r2, key := computeKey sha r1 r2, startTime := now }

/-- The session update applied by the RANDOM2 case of
Negotiator::handlePacket, negotiate.cpp lines 258-269: r2 copied from the
payload, the key recomputed, and the state left at DONE (it passes through
WAIT_CONFIRM inside the same critical section). -/
def completedSession (sha : List Nat → List Nat) (s : NegotiationSession) (r2 : List Nat) :
    NegotiationSession :=
  { s with
      random2 := r2
      key := computeKey sha s.random1 r2
      state := NegotiateState.DONE }

/-- Negotiator::handlePacket, negotiate.cpp lines 195-299. The session
lookup and update inside each case happen under the bucket lock; the whole
call is modelled as one step. Type RANDOM1 (1): an existing session for
the policy_id makes the packet an ignored duplicate (SUCCESS, nothing
changes); otherwise a payload shorter than 32 bytes is INVALID_PARAM, and
else a responder session is created in WAIT_CONFIRM with r1 copied from
the payload, r2 drawn from the RNG with no failure check, the key
computed, and a RANDOM2 packet emitted. Type RANDOM2 (2): requires an
existing session in WAIT_R2 and a payload of at least 32 bytes; copies r2,
computes the key, emits an empty CONFIRM packet, sets the state to DONE
and records a success latency. Type CONFIRM (3): any existing session is
set to DONE and a success latency recorded, with no state guard. Any other
type is INVALID_PARAM, as is policy_id 0. -/
def handlePacket (sha : List Nat → List Nat) (st : NegotiatorState) (packet : NegotiationPacket)
    (peer : Addr) (now : Nat) (rng : Option (List Nat)) :
    ErrorCode × NegotiatorState × List (NegotiationPacket × Addr) :=
  let policy_id := packet.header.sequence
  if policy_id = 0 then (ErrorCode.INVALID_PARAM, st, [])
  else if packet.header.type = 1 then
    if (lookupAssoc st.sessions policy_id).isSome then (ErrorCode.SUCCESS, st, [])
    else if 4 * packet.payload.length < RANDOM_NUMBER then (ErrorCode.INVALID_PARAM, st, [])
    else
      let r1 := (wordsToBytes packet.payload).take RANDOM_NUMBER
      let r2 := generateRandomData rng
      let session := responderSession sha policy_id r1 r2 now
      let st2 := { st with sessions := insertAssoc st.sessions policy_id session }
      let outs := if st.senderSet then [(createPacket 2 policy_id r2 now, peer)] else []
      (ErrorCode.SUCCESS, st2, outs)
  else if packet.header.type = 2 then
    match lookupAssoc st.sessions policy_id with
    | none => (ErrorCode.INVALID_PARAM, st, [])
    | some session =>
      if session.state ≠ NegotiateState.WAIT_R2 then (ErrorCode.INVALID_PARAM, st, [])
      else if 4 * packet.payload.length < RANDOM_NUMBER then (ErrorCode.INVALID_PARAM, st, [])
      else
        let r2 := (wordsToBytes packet.payload).take RANDOM_NUMBER
        let session2 := completedSession sha session r2
        let st2 := { st with sessions := insertAssoc st.sessions policy_id session2 }
        let outs := if st.senderSet then [(createPacket 3 policy_id [] now, peer)] else []
        let st3 :=
          if st.monitorSet then
            { st2 with monitor :=
                recordNegotiation st2.monitor ((now - session.startTime) % U32MOD) true }
          else st2
        (ErrorCode.SUCCESS, st3, outs)
  else if packet.header.type = 3 then
    match lookupAssoc st.sessions policy_id with
    | none => (ErrorCode.INVALID_PARAM, st, [])
    | some session =>
      let session2 : NegotiationSession := { session with state := NegotiateState.DONE }
      let st2 := { st with sessions := insertAssoc st.sessions policy_id session2 }
      let st3 :=
        if st.monitorSet then
          { st2 with monitor :=
              recordNegotiation st2.monitor ((now - session.startTime) % U32MOD) true }
        else st2
      (ErrorCode.SUCCESS, st3, [])
  else (ErrorCode.INVALID_PARAM, st, [])

/-- The add branch of the supervisor command handler installed on the
Unix-socket server, NegotioApplication.cpp lines 155-184: insert the
policy into the PolicyManager, discard the success flag (the code casts it
to void outside debug builds), and invoke startNegotiation for the policy
id against (remote_ip, remote_port) unconditionally. -/
def handleAddCommand (pm : List (Nat × PolicyConfig)) (neg : NegotiatorState)
    (cfg : PolicyConfig) (now : Nat) (rng : Option (List Nat)) :
    List (Nat × PolicyConfig) × NegotiatorState × List (NegotiationPacket × Addr) :=
  let add := addPolicy pm cfg
  let start := startNegotiation neg cfg.policy_id (cfg.remote_ip, cfg.remote_port) now rng
  (add.2, start.2.1, start.2.2)

/-- A stand-in for the library SHA-256 primitive in concrete evaluations;
the theorems are parametric in the hash function. -/
def shaZero : List Nat → List Nat := fun _ => List.replicate 32 0

/-- A concrete peer address for concrete evaluations. -/
def addr0 : Addr := ("127.0.0.1", 5000)

/-- A policy configuration with the given id. -/
def mkCfg (i : Nat) : PolicyConfig :=
  { policy_id := i, remote_ip := "10.0.0.1", remote_port := 9000, timeout_ms := 100,
    retry_times := 3 }

/-- A store holding the n distinct policy ids n-1 down to 0. -/
def mkStore : Nat → List (Nat × PolicyConfig)
  | 0 => []
  | n + 1 => (n, mkCfg n) :: mkStore n

/-- A policy store filled to capacity with 4096 distinct ids. -/
def polStore4096 : List (Nat × PolicyConfig) := mkStore 4096

/-- A negotiator with no sessions and both callbacks installed. -/
def freshNegotiator : NegotiatorState :=
  { sessions := [], senderSet := true, monitorSet := true, monitor := Monitor.init }

/-- An initiator session in WAIT_R2 for the given policy id, with a
32-byte r1 of 0x11 bytes, as startNegotiation creates it. -/
def sessionW (pid : Nat) : NegotiationSession :=
  { policy_id := pid, state := NegotiateState.WAIT_R2, random1 := List.replicate 32 17,
    random2 := [], key := some [], startTime := 0 }

/-- A negotiator holding one WAIT_R2 session for policy id 5. -/
def stWithW5 : NegotiatorState :=
  { sessions := [(5, sessionW 5)], senderSet := true, monitorSet := true,
    monitor := Monitor.init }

/-- A negotiator holding one WAIT_R2 session for policy id 9. -/
def stWithW9 : NegotiatorState :=
  { sessions := [(9, sessionW 9)], senderSet := true, monitorSet := true,
    monitor := Monitor.init }

/-- An inbound CONFIRM packet for policy id 5. -/
def confirmPacket5 : NegotiationPacket :=
  { header := { magic := MAGIC_NUMBER, type := 3, sequence := 5, timestamp := 0, payload_len := 0 }
    payload := [] }

/-- An inbound RANDOM1 packet for policy id 7 with a 32-byte nonce of 0x11
bytes (eight words 0x11111111). -/
def r1Packet7 : NegotiationPacket :=
  { header := { magic := MAGIC_NUMBER, type := 1, sequence := 7, timestamp := 0, payload_len := 8 }
    payload := List.replicate 8 286331153 }

/-- An inbound RANDOM1 packet for policy id 9 with an empty payload. -/
def shortR1Packet9 : NegotiationPacket :=
  { header := { magic := MAGIC_NUMBER, type := 1, sequence := 9, timestamp := 0, payload_len := 0 }
    payload := [] }

/-- An inbound RANDOM2 packet for policy id 5 with a 32-byte nonce of 0x22
bytes (eight words 0x22222222). -/
def r2Packet5 : NegotiationPacket :=
  { header := { magic := MAGIC_NUMBER, type := 2, sequence := 5, timestamp := 0, payload_len := 8 }
    payload := List.replicate 8 572662306 }

/-- A one-entry policy store holding policy id 1. -/
def pmWith1 : List (Nat × PolicyConfig) := [(1, mkCfg 1)]

end Negotio

namespace Negotio

theorem u32ToBytes_length (x : Nat) : (u32ToBytes x).length = 4 := rfl

theorem readU32_here (b0 b1 b2 b3 : Nat) (l : List Nat) :
    readU32 (b0 :: b1 :: b2 :: b3 :: l) 0 = bytesToU32 b0 b1 b2 b3 := rfl

theorem readU32_off4 (b0 b1 b2 b3 : Nat) (l : List Nat) :
    readU32 (b0 :: b1 :: b2 :: b3 :: l) 4 = readU32 l 0 := rfl

theorem readU32_off8 (b0 b1 b2 b3 : Nat) (l : List Nat) :
    readU32 (b0 :: b1 :: b2 :: b3 :: l) 8 = readU32 l 4 := rfl

theorem readU32_off12 (b0 b1 b2 b3 : Nat) (l : List Nat) :
    readU32 (b0 :: b1 :: b2 :: b3 :: l) 12 = readU32 l 8 := rfl

theorem readU32_off16 (b0 b1 b2 b3 : Nat) (l : List Nat) :
    readU32 (b0 :: b1 :: b2 :: b3 :: l) 16 = readU32 l 12 := rfl

theorem drop20_cons4 (b0 b1 b2 b3 : Nat) (l : List Nat) :
    (b0 :: b1 :: b2 :: b3 :: l).drop 20 = l.drop 16 := rfl

theorem drop16_cons4 (b0 b1 b2 b3 : Nat) (l : List Nat) :
    (b0 :: b1 :: b2 :: b3 :: l).drop 16 = l.drop 12 := rfl

theorem drop12_cons4 (b0 b1 b2 b3 : Nat) (l : List Nat) :
    (b0 :: b1 :: b2 :: b3 :: l).drop 12 = l.drop 8 := rfl

theorem drop8_cons4 (b0 b1 b2 b3 : Nat) (l : List Nat) :
    (b0 :: b1 :: b2 :: b3 :: l).drop 8 = l.drop 4 := rfl

theorem drop4_cons4 (b0 b1 b2 b3 : Nat) (l : List Nat) :
    (b0 :: b1 :: b2 :: b3 :: l).drop 4 = l.drop 0 := rfl

theorem wordsToBytes_length (l : List Nat) : (wordsToBytes l).length = 4 * l.length := by
  induction l with
  | nil => rfl
  | cons w t ih =>
      simp [wordsToBytes, u32ToBytes, ih]
      omega

theorem bytesToU32_u32 (x : Nat) (h : x < U32MOD) :
    bytesToU32 (x % 256) (x / 256 % 256) (x / 65536 % 256) (x / 16777216 % 256) = x := by
  unfold bytesToU32
  unfold U32MOD at h
  omega

theorem bytesToWords_wordsToBytes (l : List Nat) (h : ∀ w ∈ l, w < U32MOD) :
    bytesToWords (wordsToBytes l) = l := by
  induction l with
  | nil => rfl
  | cons w t ih =>
      have hw : w < U32MOD := h w (List.mem_cons_self w t)
      have ht : ∀ x ∈ t, x < U32MOD := fun x hx => h x (List.mem_cons_of_mem w hx)
      simp only [wordsToBytes, u32ToBytes, List.cons_append, List.nil_append, bytesToWords]
      rw [bytesToU32_u32 w hw]
      simp [ih ht]

/-- C1 (counterexample). Packet decoding accepts a 20-byte all-zero buffer
whose magic is 0, whose type is 0 and whose payload_len field would have
to be checked, and on a buffer whose remainder is not a multiple of four
it returns the malformed-packet error only after having copied the parsed
header into the output packet. This refutes the claim that decoding
rejects a wrong magic, a type outside 1/2/3 or a payload_len disagreeing
with the payload word count, and that it never populates the output on
failure. -/
theorem deserializePacket_claim1_counterexample :
    (deserializePacket (List.replicate 20 0) blankPacket).1 = 20
    ∧ (deserializePacket (List.replicate 20 0) blankPacket).2.header.magic = 0
    ∧ ¬ (deserializePacket (List.replicate 20 0) blankPacket).2.header.magic = MAGIC_NUMBER
    ∧ (deserializePacket (List.replicate 20 0) blankPacket).2.header.type = 0
    ∧ (deserializePacket (List.replicate 16 0 ++ [5, 0, 0, 0]) blankPacket).1 = 20
    ∧ (deserializePacket (List.replicate 16 0 ++ [5, 0, 0, 0]) blankPacket).2.header.payload_len = 5
    ∧ (deserializePacket (List.replicate 16 0 ++ [5, 0, 0, 0]) blankPacket).2.payload = []
    ∧ (deserializePacket (List.replicate 21 0) markedPacket).1 = -1
    ∧ (deserializePacket (List.replicate 21 0) markedPacket).2.header =
        parseHeader (List.replicate 21 0)
    ∧ ¬ (deserializePacket (List.replicate 21 0) markedPacket).2 = markedPacket := by
  decide

/-- C1 (amended). Packet decoding rejects exactly when the buffer is
shorter than the 20-byte header or when the remaining length after the
header is not a multiple of four; magic, type and payload_len are not
validated. On the multiple-of-four failure the header has already been
copied into the output packet; only the short-buffer failure leaves the
output untouched. On success the result is the buffer length, with the
parsed header and the payload words in the output. -/
theorem deserializePacket_reject_iff (buffer : List Nat) (pkt : NegotiationPacket) :
    ((deserializePacket buffer pkt).1 = -1 ↔
      buffer.length < 20 ∨ (buffer.length - 20) % 4 ≠ 0)
    ∧ (buffer.length < 20 → (deserializePacket buffer pkt).2 = pkt)
    ∧ (20 ≤ buffer.length → (buffer.length - 20) % 4 ≠ 0 →
        (deserializePacket buffer pkt).2 = { pkt with header := parseHeader buffer })
    ∧ (20 ≤ buffer.length → (buffer.length - 20) % 4 = 0 →
        deserializePacket buffer pkt =
          ((buffer.length : Int),
            { header := parseHeader buffer, payload := bytesToWords (buffer.drop 20) })) := by
  unfold deserializePacket
  split_ifs with h1 h2 <;> simp_all

/-- C1 (amended, witness). The amended rejection condition evaluated at a
24-byte buffer, a 21-byte buffer and a 3-byte buffer. -/
theorem deserializePacket_reject_iff_witness :
    (20 ≤ (List.replicate 24 0 : List Nat).length)
    ∧ ((List.replicate 24 0 : List Nat).length - 20) % 4 = 0
    ∧ deserializePacket (List.replicate 24 0) blankPacket =
        (((List.replicate 24 0 : List Nat).length : Int),
          { header := parseHeader (List.replicate 24 0)
            payload := bytesToWords ((List.replicate 24 0 : List Nat).drop 20) })
    ∧ ((deserializePacket (List.replicate 3 0) blankPacket).1 = -1 ↔
        (List.replicate 3 0 : List Nat).length < 20 ∨
          ((List.replicate 3 0 : List Nat).length - 20) % 4 ≠ 0) := by
  refine ⟨by decide, by decide, ?_, ?_⟩
  · exact (deserializePacket_reject_iff (List.replicate 24 0) blankPacket).2.2.2
      (by decide) (by decide)
  · exact (deserializePacket_reject_iff (List.replicate 3 0) blankPacket).1

/-- C4. For every packet whose header is valid (correct magic, type 1, 2
or 3, uint32_t field ranges) and whose payload_len equals the payload word
count, decoding the bytes produced by encoding the packet succeeds and
yields the packet back, and the encoded byte sequence has length
20 + 4 times payload_len. -/
theorem codec_roundtrip (p q : NegotiationPacket) (h : PacketWF p) :
    (serializePacket p).length = 20 + 4 * p.header.payload_len
    ∧ deserializePacket (serializePacket p) q =
        (((20 + 4 * p.header.payload_len : Nat) : Int), p) := by
  obtain ⟨⟨m, t, sq, ts, pl⟩, pay⟩ := p
  obtain ⟨hm, ht, hsq, hts, hpl, hplU, hw⟩ := h
  simp only at hm ht hsq hts hpl hplU ⊢
  have hm32 : m < U32MOD := by rw [hm]; decide
  have ht32 : t < U32MOD := by
    rcases ht with h1 | h1 | h1 <;> rw [h1] <;> decide
  have hpl32 : pl < U32MOD := by rw [hpl]; exact hplU
  have hser : serializePacket ⟨⟨m, t, sq, ts, pl⟩, pay⟩ =
      m % 256 :: m / 256 % 256 :: m / 65536 % 256 :: m / 16777216 % 256 ::
      t % 256 :: t / 256 % 256 :: t / 65536 % 256 :: t / 16777216 % 256 ::
      sq % 256 :: sq / 256 % 256 :: sq / 65536 % 256 :: sq / 16777216 % 256 ::
      ts % 256 :: ts / 256 % 256 :: ts / 65536 % 256 :: ts / 16777216 % 256 ::
      pl % 256 :: pl / 256 % 256 :: pl / 65536 % 256 :: pl / 16777216 % 256 ::
      wordsToBytes pay := by
    simp [serializePacket, u32ToBytes]
  have hlen : (serializePacket ⟨⟨m, t, sq, ts, pl⟩, pay⟩).length = 20 + 4 * pay.length := by
    rw [hser]
    simp [wordsToBytes_length]
    omega
  refine ⟨by rw [hlen, hpl], ?_⟩
  rw [hser]
  have hL : (m % 256 :: m / 256 % 256 :: m / 65536 % 256 :: m / 16777216 % 256 ::
      t % 256 :: t / 256 % 256 :: t / 65536 % 256 :: t / 16777216 % 256 ::
      sq % 256 :: sq / 256 % 256 :: sq / 65536 % 256 :: sq / 16777216 % 256 ::
      ts % 256 :: ts / 256 % 256 :: ts / 65536 % 256 :: ts / 16777216 % 256 ::
      pl % 256 :: pl / 256 % 256 :: pl / 65536 % 256 :: pl / 16777216 % 256 ::
      wordsToBytes pay).length = 20 + 4 * pay.length := by
    rw [← hser]
    exact hlen
  unfold deserializePacket
  rw [hL]
  rw [if_neg (by omega), if_neg (by omega)]
  simp only [parseHeader, readU32_off16, readU32_off12, readU32_off8, readU32_off4, readU32_here]
  rw [bytesToU32_u32 m hm32, bytesToU32_u32 t ht32, bytesToU32_u32 sq hsq,
    bytesToU32_u32 ts hts, bytesToU32_u32 pl hpl32]
  simp only [drop20_cons4, drop16_cons4, drop12_cons4, drop8_cons4, drop4_cons4, List.drop_zero]
  rw [bytesToWords_wordsToBytes pay hw]
  rw [hpl]

/-- C4 (witness). The round trip evaluated at a concrete RANDOM1 packet
with an eight-word payload. -/
theorem codec_roundtrip_witness :
    PacketWF r1Packet7
    ∧ ((serializePacket r1Packet7).length = 20 + 4 * r1Packet7.header.payload_len
      ∧ deserializePacket (serializePacket r1Packet7) blankPacket =
          (((20 + 4 * r1Packet7.header.payload_len : Nat) : Int), r1Packet7)) :=
  ⟨by decide, codec_roundtrip r1Packet7 blankPacket (by decide)⟩

theorem recordNegotiation_wf (m : Monitor) (d : Nat) (s : Bool) (hm : m.wf) :
    (recordNegotiation m d s).wf := by
  obtain ⟨h1, h2, h3⟩ := hm
  cases s <;> simp [Monitor.wf, recordNegotiation, U32MOD] at * <;> omega

theorem runRecords_counts (rs : List (Nat × Bool)) : ∀ m : Monitor, m.wf →
    (runRecords m rs).total = (m.total + rs.length) % U32MOD
    ∧ (runRecords m rs).succeeded =
        (m.succeeded + (rs.filter (fun r => r.2)).length) % U32MOD
    ∧ (runRecords m rs).latency =
        (m.latency + ((rs.filter (fun r => r.2)).map (fun r => r.1)).sum) % U32MOD := by
  induction rs with
  | nil =>
      intro m hm
      obtain ⟨h1, h2, h3⟩ := hm
      simp [runRecords, Nat.mod_eq_of_lt h1, Nat.mod_eq_of_lt h2, Nat.mod_eq_of_lt h3]
  | cons r t ih =>
      intro m hm
      obtain ⟨d, s⟩ := r
      obtain ⟨h1, h2, h3⟩ := ih (recordNegotiation m d s) (recordNegotiation_wf m d s hm)
      have hstep : runRecords m ((d, s) :: t) = runRecords (recordNegotiation m d s) t := rfl
      rw [hstep]
      cases s
      case false =>
        refine ⟨?_, ?_, ?_⟩
        · rw [h1]
          simp only [recordNegotiation, List.length_cons, U32MOD]
          omega
        · rw [h2]
          simp [recordNegotiation, List.filter_cons]
        · rw [h3]
          simp [recordNegotiation, List.filter_cons]
      case true =>
        refine ⟨?_, ?_, ?_⟩
        · rw [h1]
          simp only [recordNegotiation, List.length_cons, U32MOD]
          omega
        · rw [h2]
          simp [recordNegotiation, List.filter_cons, U32MOD]
          omega
        · rw [h3]
          simp [recordNegotiation, List.filter_cons, U32MOD]
          omega

/-- C8 (counterexample). The telemetry counters are uint32_t, not
unsigned 64-bit: two successful records of 4294967295 ms leave
cumulative_latency_ms at 4294967294, not at the true sum 8589934590,
because the addition wraps mod 2^32. -/
theorem monitor_u64_counterexample :
    (runRecords Monitor.init [(4294967295, true), (4294967295, true)]).succeeded = 2
    ∧ (runRecords Monitor.init [(4294967295, true), (4294967295, true)]).latency = 4294967294
    ∧ ¬ (runRecords Monitor.init [(4294967295, true), (4294967295, true)]).latency =
        4294967295 + 4294967295 := by
  decide

/-- C8 (amended). The counters total, succeeded and cumulative latency are
unsigned 32-bit: each record call increments total mod 2^32 and, on
success, increments succeeded mod 2^32 and adds the duration mod 2^32, so
after a sequence of records from a fresh monitor, total is the record
count mod 2^32, succeeded is the success count mod 2^32 and the cumulative
latency is the sum of the successful durations mod 2^32; succeeded is at
most total whenever fewer than 2^32 records have been made. -/
theorem monitor_record_spec (rs : List (Nat × Bool)) :
    (runRecords Monitor.init rs).total = rs.length % U32MOD
    ∧ (runRecords Monitor.init rs).succeeded = (rs.filter (fun r => r.2)).length % U32MOD
    ∧ (runRecords Monitor.init rs).latency =
        ((rs.filter (fun r => r.2)).map (fun r => r.1)).sum % U32MOD
    ∧ (rs.length < U32MOD →
        (runRecords Monitor.init rs).succeeded ≤ (runRecords Monitor.init rs).total) := by
  obtain ⟨h1, h2, h3⟩ := runRecords_counts rs Monitor.init (by exact ⟨by decide, by decide, by decide⟩)
  rw [show Monitor.init.total = 0 from rfl, Nat.zero_add] at h1
  rw [show Monitor.init.succeeded = 0 from rfl, Nat.zero_add] at h2
  rw [show Monitor.init.latency = 0 from rfl, Nat.zero_add] at h3
  refine ⟨h1, h2, h3, ?_⟩
  intro hlt
  have hfil : (rs.filter (fun r => r.2)).length ≤ rs.length := List.length_filter_le _ _
  rw [h1, h2, Nat.mod_eq_of_lt hlt, Nat.mod_eq_of_lt (lt_of_le_of_lt hfil hlt)]
  exact hfil

/-- C8 (amended, witness). The record semantics evaluated on three
concrete records, one of them failed. -/
theorem monitor_record_spec_witness :
    (runRecords Monitor.init [(5, true), (7, false), (3, true)]).total =
      ([(5, true), (7, false), (3, true)] : List (Nat × Bool)).length % U32MOD
    ∧ (runRecords Monitor.init [(5, true), (7, false), (3, true)]).succeeded =
        (([(5, true), (7, false), (3, true)] : List (Nat × Bool)).filter
          (fun r => r.2)).length % U32MOD
    ∧ (runRecords Monitor.init [(5, true), (7, false), (3, true)]).latency =
        ((([(5, true), (7, false), (3, true)] : List (Nat × Bool)).filter
          (fun r => r.2)).map (fun r => r.1)).sum % U32MOD
    ∧ (runRecords Monitor.init [(5, true), (7, false), (3, true)]).succeeded ≤
        (runRecords Monitor.init [(5, true), (7, false), (3, true)]).total := by
  have h := monitor_record_spec [(5, true), (7, false), (3, true)]
  exact ⟨h.1, h.2.1, h.2.2.1, h.2.2.2 (by decide)⟩

theorem lookupAssoc_isSome_iff {β : Type} (l : List (Nat × β)) (k : Nat) :
    (lookupAssoc l k).isSome = true ↔ k ∈ l.map Prod.fst := by
  induction l with
  | nil => simp [lookupAssoc]
  | cons e t ih =>
      rw [lookupAssoc]
      by_cases h : e.1 = k
      · simp [h]
      · rw [if_neg h]
        simp only [List.map_cons, List.mem_cons]
        rw [ih]
        constructor
        · intro hm
          exact Or.inr hm
        · intro hm
          rcases hm with hm | hm
          · exact absurd hm.symm h
          · exact hm

theorem eraseKey_not_mem {β : Type} (l : List (Nat × β)) (k : Nat)
    (h : ¬ k ∈ l.map Prod.fst) : eraseKey l k = l := by
  induction l with
  | nil => rfl
  | cons e t ih =>
      simp only [List.map_cons, List.mem_cons, not_or] at h
      obtain ⟨h1, h2⟩ := h
      rw [eraseKey, if_neg (fun he => h1 he.symm), ih h2]

theorem eraseKey_length {β : Type} (l : List (Nat × β)) (k : Nat)
    (hnd : (l.map Prod.fst).Nodup) (h : (lookupAssoc l k).isSome = true) :
    (eraseKey l k).length + 1 = l.length := by
  induction l with
  | nil => simp [lookupAssoc] at h
  | cons e t ih =>
      simp only [List.map_cons, List.nodup_cons] at hnd
      obtain ⟨hne, hndt⟩ := hnd
      by_cases hk : e.1 = k
      · rw [eraseKey, if_pos hk, eraseKey_not_mem t k (by rw [← hk]; exact hne)]
        simp
      · rw [eraseKey, if_neg hk]
        rw [lookupAssoc, if_neg hk] at h
        simp only [List.length_cons]
        rw [ih hndt h]

theorem lookupAssoc_eraseKey_ne {β : Type} (l : List (Nat × β)) (k k2 : Nat) (h : k2 ≠ k) :
    lookupAssoc (eraseKey l k) k2 = lookupAssoc l k2 := by
  induction l with
  | nil => rfl
  | cons e t ih =>
      rw [eraseKey]
      by_cases he : e.1 = k
      · rw [if_pos he, ih, lookupAssoc, if_neg (by rw [he]; exact fun hh => h hh.symm)]
      · rw [if_neg he, lookupAssoc, lookupAssoc]
        by_cases h2 : e.1 = k2
        · rw [if_pos h2, if_pos h2]
        · rw [if_neg h2, if_neg h2, ih]

theorem mkStore_length (n : Nat) : (mkStore n).length = n := by
  induction n with
  | zero => rfl
  | succ n ih => simp [mkStore, ih]

theorem mkStore_lookup (n k : Nat) :
    lookupAssoc (mkStore n) k = if k < n then some (mkCfg k) else none := by
  induction n with
  | zero => simp [mkStore, lookupAssoc]
  | succ n ih =>
      rw [mkStore, lookupAssoc]
      by_cases h : n = k
      · rw [if_pos h]
        subst h
        rw [if_pos (by omega)]
      · rw [if_neg h, ih]
        by_cases h2 : k < n
        · rw [if_pos h2, if_pos (by omega)]
        · rw [if_neg h2, if_neg (by omega)]

theorem mkStore_keys_nodup (n : Nat) : ((mkStore n).map Prod.fst).Nodup := by
  induction n with
  | zero => simp [mkStore]
  | succ n ih =>
      rw [mkStore]
      simp only [List.map_cons, List.nodup_cons]
      refine ⟨?_, ih⟩
      intro hmem
      have hs := (lookupAssoc_isSome_iff (mkStore n) n).mpr hmem
      rw [mkStore_lookup, if_neg (by omega)] at hs
      simp at hs

theorem lookupAssoc_insert_self {β : Type} (l : List (Nat × β)) (k : Nat) (v : β) :
    lookupAssoc (insertAssoc l k v) k = some v := by
  induction l with
  | nil => simp [insertAssoc, lookupAssoc]
  | cons e t ih =>
      by_cases h : e.1 = k <;> simp [insertAssoc, h, lookupAssoc, ih]

theorem insertAssoc_length_absent {β : Type} (l : List (Nat × β)) (k : Nat) (v : β)
    (h : lookupAssoc l k = none) : (insertAssoc l k v).length = l.length + 1 := by
  induction l with
  | nil => rfl
  | cons e t ih =>
      rw [lookupAssoc] at h
      by_cases hk : e.1 = k
      · rw [if_pos hk] at h
        exact absurd h (by simp)
      · rw [if_neg hk] at h
        rw [insertAssoc, if_neg hk]
        simp only [List.length_cons]
        rw [ih h]

/-- C7. PolicyStore add succeeds exactly when the policy_id is absent and
the store holds fewer than 4096 entries; a failed add leaves the store
unchanged and a successful one inserts the entry; an add into a full store
fails; and from a full store with distinct ids, after one remove the next
add of an absent id succeeds while any add after that fails again. -/
theorem addPolicy_spec (store : List (Nat × PolicyConfig)) (cfg : PolicyConfig) :
    ((addPolicy store cfg).1 = true ↔
      lookupAssoc store cfg.policy_id = none ∧ store.length < MAX_POLICIES)
    ∧ ((addPolicy store cfg).1 = true →
        (addPolicy store cfg).2 = insertAssoc store cfg.policy_id cfg)
    ∧ ((addPolicy store cfg).1 = false → (addPolicy store cfg).2 = store)
    ∧ (store.length = MAX_POLICIES → (addPolicy store cfg).1 = false)
    ∧ (∀ pid cfg1 cfg2,
        (store.map Prod.fst).Nodup → store.length = MAX_POLICIES →
        (lookupAssoc store pid).isSome = true →
        lookupAssoc (removePolicy store pid).2 cfg1.policy_id = none →
        (addPolicy (removePolicy store pid).2 cfg1).1 = true
        ∧ (addPolicy (addPolicy (removePolicy store pid).2 cfg1).2 cfg2).1 = false) := by
  refine ⟨?_, ?_, ?_, ?_, ?_⟩
  · unfold addPolicy
    split_ifs with hcap hdup
    · simp only [Bool.false_eq_true, false_iff, not_and]
      intro _
      omega
    · simp only [Bool.false_eq_true, false_iff, not_and]
      intro hnone
      rw [hnone] at hdup
      simp at hdup
    · simp only [true_iff]
      refine ⟨Option.not_isSome_iff_eq_none.mp (by simp [hdup]), by omega⟩
  · unfold addPolicy
    split_ifs <;> simp
  · unfold addPolicy
    split_ifs <;> simp
  · intro hlen
    unfold addPolicy
    rw [if_pos (by omega)]
  · intro pid cfg1 cfg2 hnd hlen hsome hnone
    have hrem : (removePolicy store pid).2 = eraseKey store pid := rfl
    rw [hrem] at hnone ⊢
    have hlen1 : (eraseKey store pid).length + 1 = store.length := eraseKey_length store pid hnd hsome
    have hfirst : (addPolicy (eraseKey store pid) cfg1).1 = true ∧
        (addPolicy (eraseKey store pid) cfg1).2 = insertAssoc (eraseKey store pid) cfg1.policy_id cfg1 := by
      unfold addPolicy
      rw [if_neg (by omega), if_neg (by simp [hnone])]
      exact ⟨rfl, rfl⟩
    refine ⟨hfirst.1, ?_⟩
    rw [hfirst.2]
    unfold addPolicy
    rw [if_pos (by rw [insertAssoc_length_absent _ _ _ hnone]; omega)]

/-- C7 (witness). The add and remove behavior evaluated on a store filled
with the 4096 distinct ids 0 to 4095: a further add fails; after removing
id 0, adding id 5000 succeeds and one more add fails. -/
theorem addPolicy_spec_witness :
    (polStore4096.map Prod.fst).Nodup
    ∧ polStore4096.length = MAX_POLICIES
    ∧ (lookupAssoc polStore4096 0).isSome = true
    ∧ lookupAssoc (removePolicy polStore4096 0).2 (mkCfg 5000).policy_id = none
    ∧ (addPolicy polStore4096 (mkCfg 9999)).1 = false
    ∧ (addPolicy (removePolicy polStore4096 0).2 (mkCfg 5000)).1 = true
    ∧ (addPolicy (addPolicy (removePolicy polStore4096 0).2 (mkCfg 5000)).2 (mkCfg 6000)).1 = false := by
  have hnd : (polStore4096.map Prod.fst).Nodup := mkStore_keys_nodup 4096
  have hlen : polStore4096.length = MAX_POLICIES := by
    rw [polStore4096, mkStore_length]
    rfl
  have hsome : (lookupAssoc polStore4096 0).isSome = true := by
    rw [polStore4096, mkStore_lookup, if_pos (by omega)]
    rfl
  have hnone : lookupAssoc (removePolicy polStore4096 0).2 (mkCfg 5000).policy_id = none := by
    have hrem : (removePolicy polStore4096 0).2 = eraseKey polStore4096 0 := rfl
    rw [hrem, lookupAssoc_eraseKey_ne polStore4096 0 (mkCfg 5000).policy_id (by decide),
      polStore4096, mkStore_lookup, if_neg (by decide)]
  have h := addPolicy_spec polStore4096 (mkCfg 9999)
  have h5 := h.2.2.2.2 0 (mkCfg 5000) (mkCfg 6000) hnd hlen hsome hnone
  exact ⟨hnd, hlen, hsome, hnone, h.2.2.2.1 hlen, h5.1, h5.2⟩

theorem take_nonce_length (pay : List Nat) (h : 32 ≤ 4 * pay.length) :
    ((wordsToBytes pay).take 32).length = 32 := by
  rw [List.length_take, wordsToBytes_length]
  omega

theorem take_all_of_len32 (l : List Nat) (h : l.length = 32) : l.take 32 = l := by
  rw [← h]
  exact List.take_length l

theorem startNegotiation_success (st : NegotiatorState) (pid : Nat) (peer : Addr) (now : Nat)
    (r1 : List Nat) (hpid : pid ≠ 0) (hr1 : r1.length = 32) :
    startNegotiation st pid peer now (some r1) =
      (ErrorCode.SUCCESS,
        { st with sessions := insertAssoc st.sessions pid (initiatorSession pid r1 now) },
        if st.senderSet then [(createPacket 1 pid r1 now, peer)] else []) := by
  have hne : ¬ r1 = [] := by
    intro h
    rw [h] at hr1
    simp at hr1
  simp only [startNegotiation, generateRandomData, Option.getD_some, if_neg hpid, if_neg hne]

theorem computeKey_of_len32 (sha : List Nat → List Nat) (r1 r2 : List Nat)
    (h1 : r1.length = 32) (h2 : r2.length = 32) :
    computeKey sha r1 r2 = some (sha (r1 ++ r2)) := by
  unfold computeKey RANDOM_NUMBER
  rw [if_pos ⟨by omega, by omega⟩, take_all_of_len32 r1 h1, take_all_of_len32 r2 h2]

/-- C2. A session in WAIT_R2 receiving an inbound RANDOM2 packet with at
least 32 payload bytes is completed: the first 32 payload bytes become r2,
the key becomes the hash of the 64-byte concatenation of r1 and r2, one
CONFIRM packet with empty payload is emitted to the peer, the stored
session state becomes DONE, and one success latency observation is
recorded in the monitor. -/
theorem handlePacket_waitR2_r2 (sha : List Nat → List Nat) (st : NegotiatorState)
    (packet : NegotiationPacket) (peer : Addr) (now : Nat) (rng : Option (List Nat))
    (s : NegotiationSession)
    (hpid : packet.header.sequence ≠ 0)
    (htype : packet.header.type = 2)
    (hs : lookupAssoc st.sessions packet.header.sequence = some s)
    (hstate : s.state = NegotiateState.WAIT_R2)
    (hlen : 32 ≤ 4 * packet.payload.length)
    (hr1 : s.random1.length = 32)
    (hsend : st.senderSet = true)
    (hmon : st.monitorSet = true) :
    handlePacket sha st packet peer now rng =
      (ErrorCode.SUCCESS,
        { st with
            sessions := insertAssoc st.sessions packet.header.sequence (completedSession sha s ((wordsToBytes packet.payload).take 32))
            monitor := recordNegotiation st.monitor ((now - s.startTime) % U32MOD) true },
        [(createPacket 3 packet.header.sequence [] now, peer)])
    ∧ (completedSession sha s ((wordsToBytes packet.payload).take 32)).key =
        some (sha (s.random1 ++ (wordsToBytes packet.payload).take 32))
    ∧ (completedSession sha s ((wordsToBytes packet.payload).take 32)).state = NegotiateState.DONE
    ∧ (s.random1 ++ (wordsToBytes packet.payload).take 32).length = 64
    ∧ (createPacket 3 packet.header.sequence [] now).payload = []
    ∧ (createPacket 3 packet.header.sequence [] now).header.payload_len = 0
    ∧ lookupAssoc (insertAssoc st.sessions packet.header.sequence (completedSession sha s ((wordsToBytes packet.payload).take 32))) packet.header.sequence =
        some (completedSession sha s ((wordsToBytes packet.payload).take 32)) := by
  have hnl : ¬ (4 * packet.payload.length < RANDOM_NUMBER) := by
    unfold RANDOM_NUMBER
    omega
  have hlen32 : ((wordsToBytes packet.payload).take 32).length = 32 := take_nonce_length _ hlen
  have hkey : computeKey sha s.random1 ((wordsToBytes packet.payload).take 32) =
      some (sha (s.random1 ++ (wordsToBytes packet.payload).take 32)) :=
    computeKey_of_len32 sha _ _ hr1 hlen32
  refine ⟨?_, ?_, rfl, ?_, rfl, rfl, lookupAssoc_insert_self _ _ _⟩
  · simp only [handlePacket, hpid, htype, hs, hstate, hsend, hmon, hnl, RANDOM_NUMBER]
    simp [hpid, hnl, RANDOM_NUMBER]
    exact hlen
  · simp only [completedSession, hkey]
  · rw [List.length_append, hr1, hlen32]

/-- C3 (counterexample). A session in WAIT_R2 that receives an inbound
CONFIRM is moved to DONE and counted as a success, although its state is
not WAIT_CONFIRM, and a second CONFIRM for the now-DONE session is counted
again: after two CONFIRM packets for policy id 5 the succeeded counter is
2 for a single session. -/
theorem handlePacket_confirm_counterexample :
    lookupAssoc stWithW5.sessions 5 = some (sessionW 5)
    ∧ (sessionW 5).state = NegotiateState.WAIT_R2
    ∧ (handlePacket shaZero stWithW5 confirmPacket5 addr0 3 none).1 = ErrorCode.SUCCESS
    ∧ lookupAssoc (handlePacket shaZero stWithW5 confirmPacket5 addr0 3 none).2.1.sessions 5 =
        some { sessionW 5 with state := NegotiateState.DONE }
    ∧ (handlePacket shaZero stWithW5 confirmPacket5 addr0 3 none).2.1.monitor.succeeded = 1
    ∧ (handlePacket shaZero (handlePacket shaZero stWithW5 confirmPacket5 addr0 3 none).2.1 confirmPacket5 addr0 4 none).2.1.monitor.succeeded = 2 := by
  decide

/-- C3 (amended). An inbound CONFIRM for any existing session sets its
state to DONE and records one success latency regardless of the current
state, so a WAIT_R2 session is completed by a CONFIRM and a session
already DONE is transitioned and counted again by each further CONFIRM;
only a missing session yields InvalidParameter. -/
theorem handlePacket_confirm_unguarded (sha : List Nat → List Nat) (st : NegotiatorState)
    (packet : NegotiationPacket) (peer : Addr) (now : Nat) (rng : Option (List Nat))
    (s : NegotiationSession)
    (hpid : packet.header.sequence ≠ 0)
    (htype : packet.header.type = 3)
    (hs : lookupAssoc st.sessions packet.header.sequence = some s)
    (hmon : st.monitorSet = true) :
    handlePacket sha st packet peer now rng =
      (ErrorCode.SUCCESS,
        { st with
            sessions := insertAssoc st.sessions packet.header.sequence { s with state := NegotiateState.DONE }
            monitor := recordNegotiation st.monitor ((now - s.startTime) % U32MOD) true },
        []) := by
  simp only [handlePacket, hpid, htype, hs, hmon]
  simp [hpid]

/-- C3 (amended, witness). The unguarded CONFIRM transition evaluated on a
concrete WAIT_R2 session for policy id 5. -/
theorem handlePacket_confirm_unguarded_witness :
    ((5 : Nat) ≠ 0
      ∧ confirmPacket5.header.type = 3
      ∧ lookupAssoc stWithW5.sessions confirmPacket5.header.sequence = some (sessionW 5)
      ∧ stWithW5.monitorSet = true)
    ∧ handlePacket shaZero stWithW5 confirmPacket5 addr0 3 none =
        (ErrorCode.SUCCESS,
          { stWithW5 with
              sessions := insertAssoc stWithW5.sessions confirmPacket5.header.sequence { sessionW 5 with state := NegotiateState.DONE }
              monitor := recordNegotiation stWithW5.monitor ((3 - (sessionW 5).startTime) % U32MOD) true },
          []) :=
  ⟨⟨by decide, by decide, by decide, by decide⟩,
    handlePacket_confirm_unguarded shaZero stWithW5 confirmPacket5 addr0 3 none (sessionW 5)
      (by decide) (by decide) (by decide) (by decide)⟩

/-- C2 (witness). The WAIT_R2 completion evaluated on a concrete session
for policy id 5 receiving a RANDOM2 packet whose payload is 32 bytes of
0x22. -/
theorem handlePacket_waitR2_r2_witness :
    (r2Packet5.header.sequence ≠ 0
      ∧ r2Packet5.header.type = 2
      ∧ lookupAssoc stWithW5.sessions r2Packet5.header.sequence = some (sessionW 5)
      ∧ (sessionW 5).state = NegotiateState.WAIT_R2
      ∧ 32 ≤ 4 * r2Packet5.payload.length
      ∧ (sessionW 5).random1.length = 32
      ∧ stWithW5.senderSet = true
      ∧ stWithW5.monitorSet = true)
    ∧ handlePacket shaZero stWithW5 r2Packet5 addr0 3 none =
        (ErrorCode.SUCCESS,
          { stWithW5 with
              sessions := insertAssoc stWithW5.sessions r2Packet5.header.sequence (completedSession shaZero (sessionW 5) ((wordsToBytes r2Packet5.payload).take 32))
              monitor := recordNegotiation stWithW5.monitor ((3 - (sessionW 5).startTime) % U32MOD) true },
          [(createPacket 3 r2Packet5.header.sequence [] 3, addr0)])
    ∧ (completedSession shaZero (sessionW 5) ((wordsToBytes r2Packet5.payload).take 32)).key =
        some (shaZero ((sessionW 5).random1 ++ (wordsToBytes r2Packet5.payload).take 32)) := by
  have h := handlePacket_waitR2_r2 shaZero stWithW5 r2Packet5 addr0 3 none (sessionW 5)
    (by decide) (by decide) (by decide) (by decide) (by decide) (by decide) (by decide) (by decide)
  exact ⟨⟨by decide, by decide, by decide, by decide, by decide, by decide, by decide, by decide⟩,
    h.1, h.2.1⟩

/-- C5. The initiator path complies with the claim: startNegotiation under
RNG failure returns MEMORY_ERROR, stores no session and emits nothing. The
responder path does not: an inbound RANDOM1 with a valid 32-byte payload
under RNG failure returns SUCCESS, stores a WAIT_CONFIRM session whose r2
is empty and whose key is the undefined result of an out-of-bounds read,
and even emits a RANDOM2 packet carrying the empty nonce, instead of
returning a memory error and creating no session. -/
theorem rng_failure_divergence :
    (startNegotiation freshNegotiator 7 addr0 0 none).1 = ErrorCode.MEMORY_ERROR
    ∧ (startNegotiation freshNegotiator 7 addr0 0 none).2.1 = freshNegotiator
    ∧ (startNegotiation freshNegotiator 7 addr0 0 none).2.2 = []
    ∧ (handlePacket shaZero freshNegotiator r1Packet7 addr0 0 none).1 = ErrorCode.SUCCESS
    ∧ ¬ (handlePacket shaZero freshNegotiator r1Packet7 addr0 0 none).1 = ErrorCode.MEMORY_ERROR
    ∧ lookupAssoc (handlePacket shaZero freshNegotiator r1Packet7 addr0 0 none).2.1.sessions 7 =
        some (responderSession shaZero 7 (List.replicate 32 17) [] 0)
    ∧ (responderSession shaZero 7 (List.replicate 32 17) [] 0).random2 = []
    ∧ (responderSession shaZero 7 (List.replicate 32 17) [] 0).key = none
    ∧ (handlePacket shaZero freshNegotiator r1Packet7 addr0 0 none).2.2 =
        [(createPacket 2 7 [] 0, addr0)] := by
  decide

/-- C9 (counterexample). An inbound RANDOM1 whose payload is shorter than
32 bytes, arriving for a policy id that already has a session, returns
SUCCESS (the duplicate is dropped before the payload length is checked),
not InvalidParameter. -/
theorem handlePacket_short_counterexample :
    4 * shortR1Packet9.payload.length < 32
    ∧ shortR1Packet9.header.type = 1
    ∧ (lookupAssoc stWithW9.sessions shortR1Packet9.header.sequence).isSome = true
    ∧ (handlePacket shaZero stWithW9 shortR1Packet9 addr0 0 none).1 = ErrorCode.SUCCESS
    ∧ ¬ (handlePacket shaZero stWithW9 shortR1Packet9 addr0 0 none).1 = ErrorCode.INVALID_PARAM := by
  decide

/-- C9 (amended). An inbound RANDOM1 or RANDOM2 whose payload is shorter
than 32 bytes yields InvalidParameter, except that a RANDOM1 for a policy
id that already has a session is dropped with SUCCESS before the length
check; in every case the negotiator state is unchanged (no session is
created or modified, no telemetry is recorded) and nothing is emitted. -/
theorem handlePacket_short_nonce (sha : List Nat → List Nat) (st : NegotiatorState)
    (packet : NegotiationPacket) (peer : Addr) (now : Nat) (rng : Option (List Nat))
    (htype : packet.header.type = 1 ∨ packet.header.type = 2)
    (hshort : 4 * packet.payload.length < 32) :
    ((handlePacket sha st packet peer now rng).1 = ErrorCode.INVALID_PARAM
      ∨ (packet.header.type = 1
          ∧ (lookupAssoc st.sessions packet.header.sequence).isSome = true
          ∧ (handlePacket sha st packet peer now rng).1 = ErrorCode.SUCCESS))
    ∧ (handlePacket sha st packet peer now rng).2.1 = st
    ∧ (handlePacket sha st packet peer now rng).2.2 = [] := by
  by_cases hpid : packet.header.sequence = 0
  · simp [handlePacket, hpid]
  · rcases htype with h1 | h2
    · by_cases hex : (lookupAssoc st.sessions packet.header.sequence).isSome = true
      · simp [handlePacket, hpid, h1, hex]
      · simp [handlePacket, hpid, h1, hex, RANDOM_NUMBER, hshort]
    · cases hlook : lookupAssoc st.sessions packet.header.sequence with
      | none => simp [handlePacket, hpid, h2, hlook]
      | some session =>
          by_cases hstate : session.state = NegotiateState.WAIT_R2
          · simp [handlePacket, hpid, h2, hlook, hstate, RANDOM_NUMBER, hshort]
          · simp [handlePacket, hpid, h2, hlook, hstate]

/-- C9 (amended, witness). A short RANDOM2 for a WAIT_R2 session and a
short RANDOM1 for an unknown policy id both yield InvalidParameter with no
state change. -/
theorem handlePacket_short_nonce_witness :
    ((shortR1Packet9.header.type = 1 ∨ shortR1Packet9.header.type = 2)
      ∧ 4 * shortR1Packet9.payload.length < 32)
    ∧ ((handlePacket shaZero freshNegotiator shortR1Packet9 addr0 0 none).1 = ErrorCode.INVALID_PARAM
        ∨ (shortR1Packet9.header.type = 1
            ∧ (lookupAssoc freshNegotiator.sessions shortR1Packet9.header.sequence).isSome = true
            ∧ (handlePacket shaZero freshNegotiator shortR1Packet9 addr0 0 none).1 = ErrorCode.SUCCESS))
    ∧ (handlePacket shaZero freshNegotiator shortR1Packet9 addr0 0 none).2.1 = freshNegotiator
    ∧ (handlePacket shaZero freshNegotiator shortR1Packet9 addr0 0 none).2.2 = [] := by
  have h := handlePacket_short_nonce shaZero freshNegotiator shortR1Packet9 addr0 0 none
    (Or.inl (by decide)) (by decide)
  exact ⟨⟨Or.inl (by decide), by decide⟩, h.1, h.2.1, h.2.2⟩

/-- C10. Calling startNegotiation for a policy id that already has a live
session does not fail: it returns SUCCESS, replaces the stored session
with a fresh WAIT_R2 session carrying the newly drawn r1 and an empty key,
emits a RANDOM1 packet when the sender is installed, and the lookup under
that policy id afterwards yields the fresh session, discarding the old
one. -/
theorem startNegotiation_replaces (st : NegotiatorState) (pid : Nat) (peer : Addr) (now : Nat)
    (r1 : List Nat) (old : NegotiationSession)
    (hpid : pid ≠ 0)
    (hold : lookupAssoc st.sessions pid = some old)
    (hr1 : r1.length = 32) :
    startNegotiation st pid peer now (some r1) =
      (ErrorCode.SUCCESS,
        { st with sessions := insertAssoc st.sessions pid (initiatorSession pid r1 now) },
        if st.senderSet then [(createPacket 1 pid r1 now, peer)] else [])
    ∧ lookupAssoc (insertAssoc st.sessions pid (initiatorSession pid r1 now)) pid =
        some (initiatorSession pid r1 now)
    ∧ (initiatorSession pid r1 now).state = NegotiateState.WAIT_R2
    ∧ (initiatorSession pid r1 now).random1 = r1
    ∧ (initiatorSession pid r1 now).key = some [] :=
  ⟨startNegotiation_success st pid peer now r1 hpid hr1,
    lookupAssoc_insert_self st.sessions pid (initiatorSession pid r1 now), rfl, rfl, rfl⟩

/-- C10 (witness). Restarting the negotiation for policy id 5, which holds
a live WAIT_R2 session, replaces it with a fresh session carrying the new
nonce of 0x22 bytes. -/
theorem startNegotiation_replaces_witness :
    ((5 : Nat) ≠ 0
      ∧ lookupAssoc stWithW5.sessions 5 = some (sessionW 5)
      ∧ (List.replicate 32 34 : List Nat).length = 32)
    ∧ startNegotiation stWithW5 5 addr0 9 (some (List.replicate 32 34)) =
        (ErrorCode.SUCCESS,
          { stWithW5 with sessions := insertAssoc stWithW5.sessions 5 (initiatorSession 5 (List.replicate 32 34) 9) },
          if stWithW5.senderSet then [(createPacket 1 5 (List.replicate 32 34) 9, addr0)] else [])
    ∧ lookupAssoc (insertAssoc stWithW5.sessions 5 (initiatorSession 5 (List.replicate 32 34) 9)) 5 =
        some (initiatorSession 5 (List.replicate 32 34) 9) := by
  have h := startNegotiation_replaces stWithW5 5 addr0 9 (List.replicate 32 34) (sessionW 5)
    (by decide) (by decide) (by decide)
  exact ⟨⟨by decide, by decide, by decide⟩, h.1, h.2.1⟩

/-- C6 (counterexample). A well-formed add command for policy id 1, which
is already present in the policy store, fails to insert (addPolicy returns
false) yet the handler still starts a negotiation: a fresh WAIT_R2 session
for policy id 1 is stored and a RANDOM1 packet is emitted. -/
theorem handleAddCommand_counterexample :
    (addPolicy pmWith1 (mkCfg 1)).1 = false
    ∧ (handleAddCommand pmWith1 freshNegotiator (mkCfg 1) 0 (some (List.replicate 32 51))).1 = pmWith1
    ∧ lookupAssoc (handleAddCommand pmWith1 freshNegotiator (mkCfg 1) 0 (some (List.replicate 32 51))).2.1.sessions 1 =
        some (initiatorSession 1 (List.replicate 32 51) 0)
    ∧ ¬ (handleAddCommand pmWith1 freshNegotiator (mkCfg 1) 0 (some (List.replicate 32 51))).2.2 = [] := by
  decide

/-- C6 (amended). On a well-formed add command the handler updates the
policy store exactly as addPolicy does, but invokes startNegotiation
unconditionally: whenever the policy id is nonzero and the RNG succeeds, a
fresh WAIT_R2 session for the policy id is stored and a RANDOM1 packet is
emitted to (remote_ip, remote_port), even when the insert failed as a
duplicate or over capacity. -/
theorem handleAddCommand_spec (pm : List (Nat × PolicyConfig)) (neg : NegotiatorState)
    (cfg : PolicyConfig) (now : Nat) (r1 : List Nat)
    (hpid : cfg.policy_id ≠ 0)
    (hr1 : r1.length = 32)
    (hsend : neg.senderSet = true) :
    (handleAddCommand pm neg cfg now (some r1)).1 = (addPolicy pm cfg).2
    ∧ lookupAssoc (handleAddCommand pm neg cfg now (some r1)).2.1.sessions cfg.policy_id =
        some (initiatorSession cfg.policy_id r1 now)
    ∧ (handleAddCommand pm neg cfg now (some r1)).2.2 =
        [(createPacket 1 cfg.policy_id r1 now, (cfg.remote_ip, cfg.remote_port))] := by
  have hstart := startNegotiation_success neg cfg.policy_id (cfg.remote_ip, cfg.remote_port) now
    r1 hpid hr1
  have h1 : (handleAddCommand pm neg cfg now (some r1)).2.1 =
      (startNegotiation neg cfg.policy_id (cfg.remote_ip, cfg.remote_port) now (some r1)).2.1 := rfl
  have h2 : (handleAddCommand pm neg cfg now (some r1)).2.2 =
      (startNegotiation neg cfg.policy_id (cfg.remote_ip, cfg.remote_port) now (some r1)).2.2 := rfl
  refine ⟨rfl, ?_, ?_⟩
  · rw [h1, hstart]
    exact lookupAssoc_insert_self neg.sessions cfg.policy_id (initiatorSession cfg.policy_id r1 now)
  · rw [h2, hstart]
    simp [hsend]

/-- C6 (amended, witness). The handler evaluated on a duplicate add for
policy id 1: the store is unchanged yet a session is created and a RANDOM1
packet emitted. -/
theorem handleAddCommand_spec_witness :
    ((mkCfg 1).policy_id ≠ 0
      ∧ (List.replicate 32 51 : List Nat).length = 32
      ∧ freshNegotiator.senderSet = true)
    ∧ (handleAddCommand pmWith1 freshNegotiator (mkCfg 1) 0 (some (List.replicate 32 51))).1 =
        (addPolicy pmWith1 (mkCfg 1)).2
    ∧ lookupAssoc (handleAddCommand pmWith1 freshNegotiator (mkCfg 1) 0 (some (List.replicate 32 51))).2.1.sessions (mkCfg 1).policy_id =
        some (initiatorSession (mkCfg 1).policy_id (List.replicate 32 51) 0)
    ∧ (handleAddCommand pmWith1 freshNegotiator (mkCfg 1) 0 (some (List.replicate 32 51))).2.2 =
        [(createPacket 1 (mkCfg 1).policy_id (List.replicate 32 51) 0, ((mkCfg 1).remote_ip, (mkCfg 1).remote_port))] := by
  have h := handleAddCommand_spec pmWith1 freshNegotiator (mkCfg 1) 0 (List.replicate 32 51)
    (by decide) (by decide) (by decide)
  exact ⟨⟨by decide, by decide, by decide⟩, h.1, h.2.1, h.2.2⟩

end Negotio
